import Mathlib

/-!
Verification of the order-placement and pricing pipeline of the NavKar
Jewellery backend (src/main.py, src/schemas.py).

The document store (MongoDB via pymongo) is modelled as association lists
from string ids to documents.  Monetary values (Python floats) are modelled
as exact rationals; Python's `round(x, 2)` is modelled as round-half-to-even
to two decimal places over ℚ.  The wall clock is modelled by passing each
`datetime.now(timezone.utc)` call's result as an explicit parameter, in the
order the calls occur in the source.  Store side effects are made observable
by returning, next to the endpoint's result, the updated store and the list
of store operations performed, in order.
-/

/-- A `product` collection document.  Mongo documents are schemaless and the
code reads fields with `dict.get`, so every field is optional. -/
structure ProductDoc where
  name : Option String
  description : Option String
  price : Option ℚ
  category : Option String
  image_url : Option String
  in_stock : Option Bool
  created_at : Option Nat
  updated_at : Option Nat
deriving Repr, DecidableEq

/-- Schema `CartItem` (src/main.py lines 64-66): a cart line carries only a product
id and a quantity — there is no price field a client could supply. -/
structure CartItem where
  product_id : String
  quantity : Nat
deriving Repr, DecidableEq

/-- Schema `CustomerInfo` (src/main.py lines 68-75). -/
structure CustomerInfo where
  name : String
  email : String
  phone : Option String
  address : String
  city : String
  zip_code : String
  country : String
deriving Repr, DecidableEq

/-- Schema `OrderIn` (src/main.py lines 77-80): the request body of POST /api/orders. -/
structure OrderIn where
  items : List CartItem
  customer : CustomerInfo
  payment_method : String
deriving Repr, DecidableEq

/-- One enriched line item as built by `create_order` (src/main.py lines
167-173). -/
structure OrderLineItem where
  product_id : String
  name : Option String
  price : ℚ
  quantity : Nat
  image_url : Option String
deriving Repr, DecidableEq

/-- The `order` collection document built at src/main.py lines 175-183. -/
structure OrderDoc where
  items : List OrderLineItem
  total_amount : ℚ
  status : String
  payment_method : String
  customer : CustomerInfo
  created_at : Nat
  updated_at : Nat
deriving Repr, DecidableEq

/-- Schema `ProductIn` (src/main.py lines 51-57): the admin product create/update
payload.  Pydantic guarantees the non-optional fields are present. -/
structure ProductIn where
  name : String
  description : Option String
  price : ℚ
  category : String
  image_url : Option String
  in_stock : Bool
deriving Repr, DecidableEq

/-- The document store: the `product` and `order` collections as association
lists (id, document), plus a counter generating fresh order ids, standing in
for Mongo's unique ObjectId assignment at insert time. -/
structure Store where
  products : List (String × ProductDoc)
  orders : List (String × OrderDoc)
  nextId : Nat
deriving Repr, DecidableEq

/-- The HTTPException errors raised by the order/product endpoints. -/
inductive ApiError where
  | emptyCart
  | invalidProduct (product_id : String)
  | orderNotFound
  | productNotFound
deriving Repr, DecidableEq

/-- Observable store operations, logged in the order they are performed. -/
inductive StoreEvent where
  | findProducts (ids : List String)
  | insertOrder (id : String)
  | findOrder (id : String)
  | updateOrder (id : String)
  | updateProduct (id : String)
  | findProduct (id : String)
deriving Repr, DecidableEq

/-- The body returned by POST /api/orders/{id}/mark-paid (src/main.py line
215): the dict with single key "ok" set to True, which carries no order data. -/
structure MarkPaidResponse where
  ok : Bool
deriving Repr, DecidableEq

/-- Round-half-to-even to the nearest integer, the rule Python's builtin
`round` uses, in exact arithmetic. -/
def roundHalfEven (x : ℚ) : ℤ :=
  let n := Int.floor x
  let frac := x - n
  if frac < 1/2 then n
  else if 1/2 < frac then n + 1
  else if n % 2 = 0 then n else n + 1

/-- Python's `round(x, 2)` (src/main.py line 177) over exact rationals. -/
def round2 (x : ℚ) : ℚ := (roundHalfEven (x * 100) : ℚ) / 100

/-- Update the (unique) first entry with the given key, as Mongo
`update_one` with an `_id` filter does; no entry matching means no write. -/
def updateFirst {β : Type} (l : List (String × β)) (k : String) (f : β → β) :
    List (String × β) :=
  match l with
  | [] => []
  | (k1, v) :: rest =>
    if k == k1 then (k1, f v) :: rest else (k1, v) :: updateFirst rest k f

/-- The enrichment loop of `create_order` (src/main.py lines 160-174):
walks the cart lines in submission order, resolving each against the
`prods` dict built from the batch read; a missing product aborts with the
"Invalid product" error; otherwise the line item is appended (price read
from the product document, `prod.get("price", 0)`) and the running total is
incremented by price times quantity. -/
def enrichItems (prods : List (String × ProductDoc)) :
    List CartItem → List OrderLineItem → ℚ →
    Except ApiError (List OrderLineItem × ℚ)
  | [], acc, total => .ok (acc, total)
  | item :: rest, acc, total =>
    match List.lookup item.product_id prods with
    | none => .error (.invalidProduct item.product_id)
    | some prod =>
      let price := prod.price.getD 0
      enrichItems prods rest
        (acc ++ [{ product_id := item.product_id, name := prod.name,
                   price := price, quantity := item.quantity,
                   image_url := prod.image_url }])
        (total + price * (item.quantity : ℚ))

/-- Endpoint `create_order` (src/main.py lines 153-195), POST /api/orders.
`ts1` and `ts2` are the values of the two successive
`datetime.now(timezone.utc)` calls at lines 181 and 182 (`created_at`
first).  Returns the endpoint result (inserted id and the order document
read back after insert), the updated store, and the store operations
performed. -/
def create_order (st : Store) (ts1 ts2 : Nat) (order : OrderIn) :
    Except ApiError (String × OrderDoc) × Store × List StoreEvent :=
  if order.items.isEmpty then (.error .emptyCart, st, [])
  else
    let product_ids := order.items.map CartItem.product_id
    let prods := st.products.filter fun p => product_ids.contains p.1
    match enrichItems prods order.items [] 0 with
    | .error e => (.error e, st, [.findProducts product_ids])
    | .ok (enriched, total) =>
      let order_doc : OrderDoc :=
        { items := enriched
          total_amount := round2 total
          status := "pending"
          payment_method := order.payment_method
          customer := order.customer
          created_at := ts1
          updated_at := ts2 }
      let inserted_id := "order" ++ toString st.nextId
      let st1 : Store :=
        { st with orders := (inserted_id, order_doc) :: st.orders
                  nextId := st.nextId + 1 }
      match List.lookup inserted_id st1.orders with
      | some out =>
        (.ok (inserted_id, out), st1,
         [.findProducts product_ids, .insertOrder inserted_id,
          .findOrder inserted_id])
      | none =>
        -- unreachable: the id just inserted is always found
        (.error .orderNotFound, st1,
         [.findProducts product_ids, .insertOrder inserted_id,
          .findOrder inserted_id])

/-- Endpoint `mark_order_paid` (src/main.py lines 209-215), POST
/api/orders/{id}/mark-paid.  `ts` is the `datetime.now(timezone.utc)` value
at line 212.  `update_one` matching nothing writes nothing
(`matched_count == 0` then raises 404). -/
def mark_order_paid (st : Store) (ts : Nat) (order_id : String) :
    Except ApiError MarkPaidResponse × Store × List StoreEvent :=
  match List.lookup order_id st.orders with
  | none => (.error .orderNotFound, st, [.updateOrder order_id])
  | some _ =>
    let setPaid : OrderDoc → OrderDoc :=
      fun d => { d with status := "paid", updated_at := ts }
    (.ok { ok := true },
     { st with orders := updateFirst st.orders order_id setPaid },
     [.updateOrder order_id])

/-- Endpoint `update_product` (src/main.py lines 133-142), PUT
/api/products/{id}: `$set`s every `ProductIn` field plus `updated_at` on
the matching product document, then reads it back; 404 when no match. -/
def update_product (st : Store) (ts : Nat) (product_id : String)
    (payload : ProductIn) :
    Except ApiError ProductDoc × Store × List StoreEvent :=
  match List.lookup product_id st.products with
  | none => (.error .productNotFound, st, [.updateProduct product_id])
  | some _ =>
    let setData : ProductDoc → ProductDoc := fun old =>
      { old with name := some payload.name
                 description := payload.description
                 price := some payload.price
                 category := some payload.category
                 image_url := payload.image_url
                 in_stock := some payload.in_stock
                 updated_at := some ts }
    let st1 : Store :=
      { st with products := updateFirst st.products product_id setData }
    match List.lookup product_id st1.products with
    | some d =>
      (.ok d, st1, [.updateProduct product_id, .findProduct product_id])
    | none =>
      -- unreachable: the updated id is still present
      (.error .productNotFound, st1,
       [.updateProduct product_id, .findProduct product_id])

/-- The price `create_order` snapshots for a product id: the document's
price field, defaulting to 0 when the document lacks one (`prod.get("price",
0)` at src/main.py line 166). -/
def linePrice (prods : List (String × ProductDoc)) (pid : String) : ℚ :=
  ((List.lookup pid prods).bind ProductDoc.price).getD 0

/-- The line item `create_order` builds for one cart line (src/main.py lines
167-173), expressed as a direct lookup. -/
def lineOf (prods : List (String × ProductDoc)) (i : CartItem) :
    OrderLineItem :=
  { product_id := i.product_id
    name := (List.lookup i.product_id prods).bind ProductDoc.name
    price := linePrice prods i.product_id
    quantity := i.quantity
    image_url := (List.lookup i.product_id prods).bind ProductDoc.image_url }

/-- The unrounded order total of a cart against a store: the sum over the
cart lines of snapshotted price times quantity. -/
def cartTotal (st : Store) (items : List CartItem) : ℚ :=
  (items.map fun i => linePrice st.products i.product_id * (i.quantity : ℚ)).sum

/-- The order document `create_order` persists on success. -/
def placedDoc (st : Store) (ts1 ts2 : Nat) (order : OrderIn) : OrderDoc :=
  { items := order.items.map (lineOf st.products)
    total_amount := round2 (cartTotal st order.items)
    status := "pending"
    payment_method := order.payment_method
    customer := order.customer
    created_at := ts1
    updated_at := ts2 }

/-! ### Helper lemmas -/

/-- Looking a key up in the batch-read dict (the products filtered to the
requested ids) agrees with looking it up in the full collection, for any
requested id. -/
lemma lookup_filter_contains (ids : List String) (pid : String)
    (hm : pid ∈ ids) (l : List (String × ProductDoc)) :
    List.lookup pid (l.filter fun p => ids.contains p.1) =
      List.lookup pid l := by
  induction l with
  | nil => rfl
  | cons hd tl ih =>
    obtain ⟨k, v⟩ := hd
    by_cases hk : pid = k
    · subst hk
      simp [List.filter_cons, hm, List.lookup_cons]
    · have hbeq : (pid == k) = false := by simpa using hk
      have ih2 : List.lookup pid
          (List.filter (fun p => decide (p.1 ∈ ids)) tl) =
          List.lookup pid tl := by simpa using ih
      by_cases hc : k ∈ ids
      · simp [List.filter_cons, hc, List.lookup_cons, hbeq, ih2]
      · simp [List.filter_cons, hc, List.lookup_cons, hbeq, ih2]

/-- When every cart line resolves, the enrichment loop succeeds, appending
the line items in submission order and adding each line's price times
quantity to the running total. -/
lemma enrichItems_ok (prods : List (String × ProductDoc)) :
    ∀ (items : List CartItem) (acc : List OrderLineItem) (total : ℚ),
      (∀ i ∈ items, (List.lookup i.product_id prods).isSome) →
      enrichItems prods items acc total =
        .ok (acc ++ items.map (lineOf prods),
          total +
            (items.map fun i =>
              linePrice prods i.product_id * (i.quantity : ℚ)).sum) := by
  intro items
  induction items with
  | nil => intro acc total _; simp [enrichItems]
  | cons item rest ih =>
    intro acc total h
    obtain ⟨prod, hp⟩ :=
      Option.isSome_iff_exists.mp (h item (List.mem_cons_self item rest))
    have hrest : ∀ i ∈ rest, (List.lookup i.product_id prods).isSome :=
      fun i hi => h i (List.mem_cons_of_mem item hi)
    simp only [enrichItems, hp]
    rw [ih _ _ hrest]
    simp [lineOf, linePrice, hp, List.append_assoc, add_assoc]

/-- When some cart line does not resolve, the enrichment loop fails with
the "Invalid product" error naming an unresolvable product id of the cart. -/
lemma enrichItems_err (prods : List (String × ProductDoc)) :
    ∀ (items : List CartItem) (acc : List OrderLineItem) (total : ℚ),
      (∃ i ∈ items, List.lookup i.product_id prods = none) →
      ∃ pid, (∃ i ∈ items, i.product_id = pid) ∧
        List.lookup pid prods = none ∧
        enrichItems prods items acc total = .error (.invalidProduct pid) := by
  intro items
  induction items with
  | nil =>
    rintro acc total ⟨i, hi, -⟩
    exact absurd hi (List.not_mem_nil i)
  | cons item rest ih =>
    rintro acc total ⟨i, hi, hnone⟩
    cases hl : List.lookup item.product_id prods with
    | none =>
      refine ⟨item.product_id, ⟨item, List.mem_cons_self item rest, rfl⟩,
        hl, ?_⟩
      simp [enrichItems, hl]
    | some prod =>
      have hir : i ∈ rest := by
        rcases List.mem_cons.mp hi with h1 | h1
        · subst h1; rw [hl] at hnone; cases hnone
        · exact h1
      obtain ⟨pid, ⟨j, hj, hjpid⟩, hn, he⟩ :=
        ih (acc ++ [{ product_id := item.product_id, name := prod.name,
                      price := prod.price.getD 0, quantity := item.quantity,
                      image_url := prod.image_url }])
          (total + prod.price.getD 0 * (item.quantity : ℚ))
          ⟨i, hir, hnone⟩
      refine ⟨pid, ⟨j, List.mem_cons_of_mem item hj, hjpid⟩, hn, ?_⟩
      simpa [enrichItems, hl] using he

/-- Looking up the updated key after `updateFirst` sees the function
applied to the previously stored value. -/
lemma lookup_updateFirst_self {β : Type} (l : List (String × β)) (k : String)
    (f : β → β) :
    List.lookup k (updateFirst l k f) = (List.lookup k l).map f := by
  induction l with
  | nil => rfl
  | cons hd tl ih =>
    obtain ⟨k1, v⟩ := hd
    by_cases hk : k = k1
    · subst hk
      simp [updateFirst, List.lookup_cons]
    · have hbeq : (k == k1) = false := by simpa using hk
      simp [updateFirst, hbeq, List.lookup_cons, ih]

/-- Full characterization of a successful `create_order` call: when the cart
is non-empty and every line resolves, it returns the freshly inserted id and
the persisted order document, prepends that document to the order
collection, and performs exactly one batch product read, one order insert
and one order read-back. -/
lemma create_order_ok (st : Store) (ts1 ts2 : Nat) (order : OrderIn)
    (h1 : order.items ≠ [])
    (h2 : ∀ i ∈ order.items, (List.lookup i.product_id st.products).isSome) :
    create_order st ts1 ts2 order =
      (.ok ("order" ++ toString st.nextId, placedDoc st ts1 ts2 order),
       { st with
           orders := ("order" ++ toString st.nextId,
                      placedDoc st ts1 ts2 order) :: st.orders
           nextId := st.nextId + 1 },
       [.findProducts (order.items.map CartItem.product_id),
        .insertOrder ("order" ++ toString st.nextId),
        .findOrder ("order" ++ toString st.nextId)]) := by
  have hne : order.items.isEmpty = false := by simp [h1]
  have hfl : ∀ i ∈ order.items,
      List.lookup i.product_id
        (st.products.filter fun p =>
          (order.items.map CartItem.product_id).contains p.1) =
        List.lookup i.product_id st.products := fun i hi =>
    lookup_filter_contains _ _ (List.mem_map_of_mem CartItem.product_id hi)
      st.products
  have h2f : ∀ i ∈ order.items,
      (List.lookup i.product_id
        (st.products.filter fun p =>
          (order.items.map CartItem.product_id).contains p.1)).isSome :=
    fun i hi => by rw [hfl i hi]; exact h2 i hi
  have hmap : order.items.map
      (lineOf (st.products.filter fun p =>
        (order.items.map CartItem.product_id).contains p.1)) =
      order.items.map (lineOf st.products) :=
    List.map_congr_left fun i hi => by
      unfold lineOf linePrice
      rw [hfl i hi]
  have hsum : (order.items.map fun i =>
      linePrice (st.products.filter fun p =>
        (order.items.map CartItem.product_id).contains p.1) i.product_id *
        (i.quantity : ℚ)).sum = cartTotal st order.items := by
    unfold cartTotal
    congr 1
    exact List.map_congr_left fun i hi => by
      unfold linePrice
      rw [hfl i hi]
  simp only [create_order, hne, Bool.false_eq_true, if_false]
  rw [enrichItems_ok _ _ _ _ h2f]
  simp only [List.nil_append, zero_add, List.lookup_cons, beq_self_eq_true]
  rw [hmap, hsum]
  simp only [placedDoc]

/-- Full characterization of `create_order` on a cart with an unresolvable
line: it fails with that line's "Invalid product" error after only the
batch product read, leaving the store untouched. -/
lemma create_order_err (st : Store) (ts1 ts2 : Nat) (order : OrderIn)
    (h : ∃ i ∈ order.items, List.lookup i.product_id st.products = none) :
    ∃ pid, (∃ i ∈ order.items, i.product_id = pid) ∧
      List.lookup pid st.products = none ∧
      create_order st ts1 ts2 order =
        (.error (.invalidProduct pid), st,
         [.findProducts (order.items.map CartItem.product_id)]) := by
  obtain ⟨i0, hi0, hn0⟩ := h
  have h1 : order.items ≠ [] := by
    rintro hnil
    rw [hnil] at hi0
    exact absurd hi0 (List.not_mem_nil i0)
  have hne : order.items.isEmpty = false := by simp [h1]
  have hfl : ∀ i ∈ order.items,
      List.lookup i.product_id
        (st.products.filter fun p =>
          (order.items.map CartItem.product_id).contains p.1) =
        List.lookup i.product_id st.products := fun i hi =>
    lookup_filter_contains _ _ (List.mem_map_of_mem CartItem.product_id hi)
      st.products
  obtain ⟨pid, hmem, hn, he⟩ :=
    enrichItems_err
      (st.products.filter fun p =>
        (order.items.map CartItem.product_id).contains p.1)
      order.items [] 0 ⟨i0, hi0, by rw [hfl i0 hi0]; exact hn0⟩
  obtain ⟨j, hj, hjpid⟩ := hmem
  subst hjpid
  refine ⟨j.product_id, ⟨j, hj, rfl⟩, ?_, ?_⟩
  · rw [hfl j hj] at hn; exact hn
  · simp only [create_order, hne, Bool.false_eq_true, if_false]
    rw [he]

/-! ### Concrete fixtures for witnesses and counterexamples -/

/-- A sample customer. -/
def wCustomer : CustomerInfo :=
  { name := "Asha", email := "asha@example.com", phone := none,
    address := "1 Main St", city := "Mumbai", zip_code := "400001",
    country := "IN" }

/-- A product priced 19.99. -/
def wRing : ProductDoc :=
  { name := some "Gold Ring", description := some "22k gold ring",
    price := some (1999/100), category := some "Rings",
    image_url := some "ring.jpg", in_stock := some true,
    created_at := some 1, updated_at := some 1 }

/-- A product priced 5.005. -/
def wChain : ProductDoc :=
  { name := some "Silver Chain", description := none,
    price := some (1001/200), category := some "Necklaces",
    image_url := none, in_stock := some true,
    created_at := some 2, updated_at := some 2 }

/-- A product document lacking a price field. -/
def wNoPrice : ProductDoc :=
  { name := some "Sample", description := none, price := none,
    category := none, image_url := none, in_stock := none,
    created_at := none, updated_at := none }

/-- A catalog with the three products above and no orders. -/
def wStore : Store :=
  { products := [("p1", wRing), ("p2", wChain), ("p3", wNoPrice)],
    orders := [], nextId := 0 }

/-- A two-line cart referencing the two priced products. -/
def wOrderIn : OrderIn :=
  { items := [{ product_id := "p1", quantity := 2 },
              { product_id := "p2", quantity := 1 }],
    customer := wCustomer, payment_method := "card" }

/-- A pending order document. -/
def wPendingOrder : OrderDoc :=
  { items := [], total_amount := 10, status := "pending",
    payment_method := "card", customer := wCustomer,
    created_at := 0, updated_at := 0 }

/-- An already-paid order document. -/
def wPaidOrder : OrderDoc :=
  { items := [], total_amount := 15, status := "paid",
    payment_method := "upi", customer := wCustomer,
    created_at := 2, updated_at := 4 }

/-- A store holding one pending order under id "o1". -/
def wOrderStore : Store :=
  { products := [], orders := [("o1", wPendingOrder)], nextId := 1 }

/-- A store holding one already-paid order under id "o2". -/
def wPaidStore : Store :=
  { products := [], orders := [("o2", wPaidOrder)], nextId := 1 }

/-- A second pending order, distinguishable from `wPendingOrder`. -/
def wOtherOrder : OrderDoc :=
  { items := [], total_amount := 20, status := "pending",
    payment_method := "upi", customer := wCustomer,
    created_at := 3, updated_at := 3 }

/-- A store holding `wOtherOrder` under id "o3". -/
def wOtherStore : Store :=
  { products := [], orders := [("o3", wOtherOrder)], nextId := 1 }

/-- A one-line cart prefix referencing the priced product "p1". -/
def wPre : List CartItem := [{ product_id := "p1", quantity := 1 }]

/-- A one-line cart suffix referencing the priced product "p2". -/
def wSuf : List CartItem := [{ product_id := "p2", quantity := 1 }]

/-- A cart line referencing the priceless product "p3". -/
def wMid : CartItem := { product_id := "p3", quantity := 2 }

/-! ### Claims -/

/-- Claim C1: for every non-empty cart whose product ids all reference
existing products, `create_order` succeeds and the returned order's
`total_amount` equals the sum over the cart lines of the referenced
product's current price times the line's quantity, rounded to 2 decimal
places (round-half-to-even, Python's `round`). -/
theorem claim_C1 (st : Store) (ts1 ts2 : Nat) (order : OrderIn)
    (h1 : order.items ≠ [])
    (h2 : ∀ i ∈ order.items, (List.lookup i.product_id st.products).isSome) :
    ∃ oid doc, (create_order st ts1 ts2 order).1 = .ok (oid, doc) ∧
      doc.total_amount =
        round2 ((order.items.map fun i =>
          linePrice st.products i.product_id * (i.quantity : ℚ)).sum) :=
  ⟨"order" ++ toString st.nextId, placedDoc st ts1 ts2 order,
    by rw [create_order_ok st ts1 ts2 order h1 h2], rfl⟩

/-- Witness for C1 at a concrete store and cart. -/
theorem claim_C1_witness :
    ∃ oid doc, (create_order wStore 0 0 wOrderIn).1 = .ok (oid, doc) ∧
      doc.total_amount =
        round2 ((wOrderIn.items.map fun i =>
          linePrice wStore.products i.product_id * (i.quantity : ℚ)).sum) :=
  claim_C1 wStore 0 0 wOrderIn (by decide) (by decide)

/-- Claim C2: a cart referencing a product id absent from the catalog makes
`create_order` fail with the "Invalid product" error naming an absent
product id of the cart; the store is returned untouched (no order document
written, nothing persisted for any line) and the only store operation is
the batch product read. -/
theorem claim_C2 (st : Store) (ts1 ts2 : Nat) (order : OrderIn)
    (h : ∃ i ∈ order.items, List.lookup i.product_id st.products = none) :
    ∃ pid, (∃ i ∈ order.items, i.product_id = pid) ∧
      List.lookup pid st.products = none ∧
      create_order st ts1 ts2 order =
        (.error (.invalidProduct pid), st,
         [.findProducts (order.items.map CartItem.product_id)]) :=
  create_order_err st ts1 ts2 order h

/-- Witness for C2: a cart mixing one valid and one bogus product id. -/
theorem claim_C2_witness :
    ∃ pid,
      (∃ i ∈ ({ items := [{ product_id := "p1", quantity := 2 },
                          { product_id := "nope", quantity := 1 }],
                customer := wCustomer,
                payment_method := "card" } : OrderIn).items,
        i.product_id = pid) ∧
      List.lookup pid wStore.products = none ∧
      create_order wStore 0 0
          { items := [{ product_id := "p1", quantity := 2 },
                      { product_id := "nope", quantity := 1 }],
            customer := wCustomer, payment_method := "card" } =
        (.error (.invalidProduct pid), wStore,
         [.findProducts ["p1", "nope"]]) :=
  claim_C2 wStore 0 0
    { items := [{ product_id := "p1", quantity := 2 },
                { product_id := "nope", quantity := 1 }],
      customer := wCustomer, payment_method := "card" }
    (by decide)

/-- Claim C3: on an empty cart `create_order` fails with the empty-cart
error, the store is unchanged, and the performed store-operation list is
empty — zero store reads and zero store writes, so the failure precedes any
store access. -/
theorem claim_C3 (st : Store) (ts1 ts2 : Nat) (order : OrderIn)
    (h : order.items = []) :
    create_order st ts1 ts2 order = (.error .emptyCart, st, []) := by
  simp [create_order, h]

/-- Witness for C3 at a concrete store. -/
theorem claim_C3_witness :
    create_order wStore 0 0
        { items := [], customer := wCustomer, payment_method := "card" } =
      (.error .emptyCart, wStore, []) :=
  claim_C3 wStore 0 0
    { items := [], customer := wCustomer, payment_method := "card" } rfl

/-- Claim C4: on success the order's line items are exactly the cart lines
in submission order, each enriched by `lineOf`: price, name and image_url
read from the resolved product document, quantity copied from the cart
line.  The `CartItem` schema carries no price field, so no client-supplied
price can be used. -/
theorem claim_C4 (st : Store) (ts1 ts2 : Nat) (order : OrderIn)
    (h1 : order.items ≠ [])
    (h2 : ∀ i ∈ order.items, (List.lookup i.product_id st.products).isSome) :
    ∃ oid doc, (create_order st ts1 ts2 order).1 = .ok (oid, doc) ∧
      doc.items = order.items.map (lineOf st.products) :=
  ⟨"order" ++ toString st.nextId, placedDoc st ts1 ts2 order,
    by rw [create_order_ok st ts1 ts2 order h1 h2], rfl⟩

/-- Witness for C4 at a concrete store and cart. -/
theorem claim_C4_witness :
    ∃ oid doc, (create_order wStore 3 4 wOrderIn).1 = .ok (oid, doc) ∧
      doc.items = wOrderIn.items.map (lineOf wStore.products) :=
  claim_C4 wStore 3 4 wOrderIn (by decide) (by decide)

/-- Claim C5: `update_product` never touches the order collection: the
orders after any product update are exactly the orders before, so every
stored order's line-item prices and total_amount are unchanged (the snapshot
taken at order time is never re-read or rewritten). -/
theorem claim_C5 (st : Store) (ts : Nat) (pid : String) (payload : ProductIn) :
    ((update_product st ts pid payload).2.1).orders = st.orders := by
  unfold update_product
  split
  · rfl
  · dsimp only
    split <;> rfl

/-- Claim C6 (amended): `mark_order_paid` fails with the order-not-found
error and leaves the store untouched when no order with the given id
exists; when the order exists it sets its status to "paid" (the target
status of the only transition the code exposes) and its updated_at to the
current time, persisting the updated order — but the call returns only the
acknowledgment (ok: true), not the updated order. -/
theorem claim_C6 (st : Store) (ts : Nat) (oid : String) :
    (List.lookup oid st.orders = none →
      mark_order_paid st ts oid =
        (.error .orderNotFound, st, [.updateOrder oid])) ∧
    (∀ doc, List.lookup oid st.orders = some doc →
      (mark_order_paid st ts oid).1 = .ok { ok := true } ∧
      List.lookup oid ((mark_order_paid st ts oid).2.1).orders =
        some { doc with status := "paid", updated_at := ts }) := by
  constructor
  · intro h
    simp [mark_order_paid, h]
  · intro doc h
    refine ⟨by simp [mark_order_paid, h], ?_⟩
    simp only [mark_order_paid, h]
    rw [lookup_updateFirst_self, h]
    rfl

/-- Witness for C6: both branches applied at concrete stores. -/
theorem claim_C6_witness :
    (mark_order_paid wStore 7 "o1" =
      (.error .orderNotFound, wStore, [.updateOrder "o1"])) ∧
    ((mark_order_paid wOrderStore 7 "o1").1 = .ok { ok := true } ∧
      List.lookup "o1" ((mark_order_paid wOrderStore 7 "o1").2.1).orders =
        some { wPendingOrder with status := "paid", updated_at := 7 }) :=
  ⟨(claim_C6 wStore 7 "o1").1 rfl,
   (claim_C6 wOrderStore 7 "o1").2 wPendingOrder rfl⟩

/-- Counterexample for C6 as stated: the claim says the operation "returns
the updated Order", but two calls that update different orders (different
created_at) return identical values — the response is the constant
acknowledgment and carries no order data, so it cannot be the updated
order. -/
theorem claim_C6_counterexample :
    (mark_order_paid wOrderStore 7 "o1").1.toOption =
        some { ok := true } ∧
    (mark_order_paid wOtherStore 7 "o3").1.toOption =
        some { ok := true } ∧
    (List.lookup "o1" ((mark_order_paid wOrderStore 7 "o1").2.1).orders).map
        OrderDoc.created_at ≠
      (List.lookup "o3" ((mark_order_paid wOtherStore 7 "o3").2.1).orders).map
        OrderDoc.created_at := by
  refine ⟨rfl, rfl, ?_⟩
  decide

/-- Claim C7 (evaluating the code at the failing input): with the first
`datetime.now` read returning 0 and the second returning 1, the persisted
order has status "pending" but created_at = 0 and updated_at = 1 — the two
timestamps are independent reads, not a single instant. -/
theorem claim_C7 :
    ∃ oid doc, (create_order wStore 0 1 wOrderIn).1 = .ok (oid, doc) ∧
      doc.status = "pending" ∧ doc.created_at = 0 ∧ doc.updated_at = 1 ∧
      doc.created_at ≠ doc.updated_at :=
  ⟨"order" ++ toString wStore.nextId, placedDoc wStore 0 1 wOrderIn,
    by rw [create_order_ok wStore 0 1 wOrderIn (by decide) (by decide)],
    rfl, rfl, rfl, by decide⟩

/-- Claim C8: the order total is invariant under permutation of the cart
lines: two carts that are permutations of each other (same customer and
payment method) both succeed and produce the same total_amount. -/
theorem claim_C8 (st : Store) (ts1 ts2 : Nat) (c : CustomerInfo)
    (pm : String) (l1 l2 : List CartItem) (hp : l1.Perm l2) (h1 : l1 ≠ [])
    (h2 : ∀ i ∈ l1, (List.lookup i.product_id st.products).isSome) :
    ∃ oid1 doc1 oid2 doc2,
      (create_order st ts1 ts2
        { items := l1, customer := c, payment_method := pm }).1 =
          .ok (oid1, doc1) ∧
      (create_order st ts1 ts2
        { items := l2, customer := c, payment_method := pm }).1 =
          .ok (oid2, doc2) ∧
      doc1.total_amount = doc2.total_amount := by
  have h1' : l2 ≠ [] := fun h => h1 (List.Perm.eq_nil (h ▸ hp))
  have h2' : ∀ i ∈ l2, (List.lookup i.product_id st.products).isSome :=
    fun i hi => h2 i (hp.mem_iff.mpr hi)
  have hsum : cartTotal st l1 = cartTotal st l2 :=
    List.Perm.sum_eq
      (hp.map fun i => linePrice st.products i.product_id * (i.quantity : ℚ))
  refine ⟨"order" ++ toString st.nextId,
    placedDoc st ts1 ts2 { items := l1, customer := c, payment_method := pm },
    "order" ++ toString st.nextId,
    placedDoc st ts1 ts2 { items := l2, customer := c, payment_method := pm },
    ?_, ?_, ?_⟩
  · rw [create_order_ok st ts1 ts2 _ h1 h2]
  · rw [create_order_ok st ts1 ts2 _ h1' h2']
  · show round2 (cartTotal st l1) = round2 (cartTotal st l2)
    rw [hsum]

/-- Witness for C8: the two-line sample cart against its own reversal. -/
theorem claim_C8_witness :
    ∃ oid1 doc1 oid2 doc2,
      (create_order wStore 0 0
        { items := [{ product_id := "p1", quantity := 2 },
                    { product_id := "p2", quantity := 1 }],
          customer := wCustomer, payment_method := "card" }).1 =
          .ok (oid1, doc1) ∧
      (create_order wStore 0 0
        { items := [{ product_id := "p2", quantity := 1 },
                    { product_id := "p1", quantity := 2 }],
          customer := wCustomer, payment_method := "card" }).1 =
          .ok (oid2, doc2) ∧
      doc1.total_amount = doc2.total_amount :=
  claim_C8 wStore 0 0 wCustomer "card"
    [{ product_id := "p1", quantity := 2 },
     { product_id := "p2", quantity := 1 }]
    [{ product_id := "p2", quantity := 1 },
     { product_id := "p1", quantity := 2 }]
    (by decide) (by decide) (by decide)

/-- Claim C9: re-applying the mark-paid transition to an order that is
already "paid" is not rejected — it succeeds with the same acknowledgment
and the stored status remains "paid" (idempotent in its effect on status). -/
theorem claim_C9 (st : Store) (ts : Nat) (oid : String) (doc : OrderDoc)
    (h : List.lookup oid st.orders = some doc) (hs : doc.status = "paid") :
    (mark_order_paid st ts oid).1 = .ok { ok := true } ∧
    (List.lookup oid ((mark_order_paid st ts oid).2.1).orders).map
        OrderDoc.status = some "paid" := by
  refine ⟨by simp [mark_order_paid, h], ?_⟩
  simp only [mark_order_paid, h]
  rw [lookup_updateFirst_self, h]
  rfl

/-- Witness for C9 at a store holding an already-paid order. -/
theorem claim_C9_witness :
    (mark_order_paid wPaidStore 9 "o2").1 = .ok { ok := true } ∧
    (List.lookup "o2" ((mark_order_paid wPaidStore 9 "o2").2.1).orders).map
        OrderDoc.status = some "paid" :=
  claim_C9 wPaidStore 9 "o2" wPaidOrder rfl rfl

/-- Claim C10: a cart line whose product document lacks a price field does
not make `create_order` fail: the line is snapshotted with price 0 and
contributes 0 to the total, which equals the rounded sum over the other
lines alone. -/
theorem claim_C10 (st : Store) (ts1 ts2 : Nat) (c : CustomerInfo)
    (pm : String) (pre suf : List CartItem) (item : CartItem)
    (h2 : ∀ i ∈ pre ++ item :: suf,
      (List.lookup i.product_id st.products).isSome)
    (hp : (List.lookup item.product_id st.products).bind ProductDoc.price =
      none) :
    ∃ oid doc,
      (create_order st ts1 ts2
        { items := pre ++ item :: suf, customer := c,
          payment_method := pm }).1 = .ok (oid, doc) ∧
      (lineOf st.products item).price = 0 ∧
      doc.items = (pre ++ item :: suf).map (lineOf st.products) ∧
      doc.total_amount = round2 (cartTotal st pre + cartTotal st suf) := by
  have h1 : pre ++ item :: suf ≠ [] := by simp
  have hprice : linePrice st.products item.product_id = 0 := by
    unfold linePrice
    rw [hp]
    rfl
  have htot : cartTotal st (pre ++ item :: suf) =
      cartTotal st pre + cartTotal st suf := by
    unfold cartTotal
    rw [List.map_append, List.sum_append, List.map_cons, List.sum_cons,
      hprice, zero_mul, zero_add]
  refine ⟨"order" ++ toString st.nextId,
    placedDoc st ts1 ts2
      { items := pre ++ item :: suf, customer := c, payment_method := pm },
    ?_, hprice, rfl, ?_⟩
  · rw [create_order_ok st ts1 ts2 _ h1 h2]
  · show round2 (cartTotal st (pre ++ item :: suf)) = _
    rw [htot]

/-- Witness for C10: the priceless product "p3" between two priced lines. -/
theorem claim_C10_witness :
    ∃ oid doc,
      (create_order wStore 0 0
        { items := wPre ++ wMid :: wSuf,
          customer := wCustomer, payment_method := "cod" }).1 =
        .ok (oid, doc) ∧
      (lineOf wStore.products wMid).price = 0 ∧
      doc.items = (wPre ++ wMid :: wSuf).map (lineOf wStore.products) ∧
      doc.total_amount =
        round2 (cartTotal wStore wPre + cartTotal wStore wSuf) :=
  claim_C10 wStore 0 0 wCustomer "cod" wPre wSuf wMid
    (by decide) (by decide)
